import Mathlib

/-!
# Verification of the pytest execution sandbox and iterative-repair orchestrator

A shallow embedding of the core of the `llm-tdd-testtypekit` repository:
`src/pipelines/pytest_executor.py` (the execution sandbox and result parser)
and `src/pipelines/batch_mbpp_iterative_repair.py` (the iterative-repair
orchestrator), together with theorems settling the spec's claims about them.

Python strings are modelled as `List Char`; Python's `str.split`, `str.strip`,
`str.join`, substring containment (`in`) and `startswith` are embedded as
executable functions on `List Char`.
-/

namespace TddKit

/-- Characters stripped by Python's `str.strip()` with no argument. -/
def pyIsSpace (c : Char) : Bool :=
  c = ' ' || c = '\t' || c = '\n' || c = '\r' || c = '\x0b' || c = '\x0c'

/-- Python `s.strip()`: remove leading and trailing whitespace. -/
def pyStrip (s : List Char) : List Char :=
  ((s.dropWhile pyIsSpace).reverse.dropWhile pyIsSpace).reverse

/-- Python `p in s`: substring containment. -/
def isSubstr (p : List Char) (s : List Char) : Bool :=
  match s with
  | [] => p.isPrefixOf ([] : List Char)
  | _ :: t => p.isPrefixOf s || isSubstr p t

/-- Python `s.split('\n')`: split on every newline; the empty string yields
one empty line. -/
def splitNl : List Char → List (List Char)
  | [] => [[]]
  | c :: t =>
    if c = '\n' then [] :: splitNl t
    else
      match splitNl t with
      | [] => [[c]]
      | h :: r => (c :: h) :: r

/-- Python `'\n'.join(lines)`. -/
def joinNl : List (List Char) → List Char
  | [] => []
  | [l] => l
  | l :: ls => l ++ '\n' :: joinNl ls

/-- The per-line filter of `_fix_import_statements`: a line is kept unless it
matches one of the bad-import patterns for the placeholder module. -/
def keepLine (line : List Char) : Bool :=
  if isSubstr "from your_module import".data line then false
  else if isSubstr "import your_module".data line then false
  else if ("from ".data).isPrefixOf (pyStrip line) &&
          isSubstr "import".data line && isSubstr "your_module".data line then false
  else true

/-- `PytestExecutor._fix_import_statements`: split the tests into lines, drop
lines importing the placeholder module, and rejoin with newlines. -/
def fixImportStatements (tests : List Char) : List Char :=
  joinNl ((splitNl tests).filter keepLine)

/-- `PytestExecutor._tests_contain_function_definition`: some line of the
tests, once stripped, starts with `def ` but not with `def test_`. -/
def testsContainFunctionDefinition (tests : List Char) : Bool :=
  (splitNl tests).any fun rawLine =>
    ("def ".data).isPrefixOf (pyStrip rawLine) &&
      !("def test_".data).isPrefixOf (pyStrip rawLine)

/-- `PytestExecutor._combine_code_and_tests`: strip both inputs; if the tests
already define a non-test function, return the sanitized tests alone;
otherwise prepend baseline imports, the candidate code, and the sanitized
tests, joined by newlines. -/
def combineCodeAndTests (code tests : List Char) : List Char :=
  let code := pyStrip code
  let tests := pyStrip tests
  if testsContainFunctionDefinition tests then
    fixImportStatements tests
  else
    joinNl ["import pytest".data, "import sys".data, "import os".data, [],
            "# Generated code".data, code, [],
            "# Generated tests".data, fixImportStatements tests]

/-! ## Result parser data model -/

/-- The raw outcome of a child-process run (`subprocess.CompletedProcess`):
exit code plus captured stdout and stderr. -/
structure CompletedProcess where
  returncode : Int
  stdout : List Char
  stderr : List Char
deriving DecidableEq

/-- The lightweight record appended for each passed test in
`_parse_pytest_output`. -/
structure PassedDetail where
  test_name : List Char
  assertion : List Char
  status : List Char
deriving DecidableEq

/-- The `FailedTest` dataclass of `pytest_executor.py` (its dict form
`_failed_test_to_dict` carries the same fields). -/
structure FailedTest where
  test_name : List Char
  assertion : List Char
  expected : List Char
  actual : List Char
  error_type : List Char
  error_message : List Char
  line_number : Option Nat
  traceback : List Char
deriving DecidableEq

/-- The `TestResult` dataclass of `pytest_executor.py`. `success_rate` and
`execution_time` are modelled as rationals. -/
structure TestResult where
  task_id : List Char
  total_tests : Nat
  passed_tests : Nat
  failed_tests : Nat
  success_rate : ℚ
  passed_test_details : List PassedDetail
  failed_test_details : List FailedTest
  execution_time : ℚ
  memory_usage : List Char
  python_version : List Char
  pytest_version : List Char
  ready_for_repair : Bool
  can_stop_iteration : Bool
  error_summary : List Char
deriving DecidableEq

/-- A regex word character (`\w`), restricted to ASCII as used by the
test-name patterns. -/
def wordChar (c : Char) : Bool := c.isAlphanum || c = '_'

/-- Leftmost match of the pattern `lit` followed by one or more word
characters (`lit\w+`), returning the matched text, as `re.search` does for
the patterns of `_extract_test_name`. -/
def searchLitWord (lit : List Char) : List Char → Option (List Char)
  | [] => none
  | c :: t =>
    if lit.isPrefixOf (c :: t) then
      let w := ((c :: t).drop lit.length).takeWhile wordChar
      if w.isEmpty then searchLitWord lit t else some (lit ++ w)
    else searchLitWord lit t

/-- `PytestExecutor._extract_test_name`: try the three regex patterns in
order; return the first match, or the empty string. -/
def extractTestName (line : List Char) : List Char :=
  match searchLitWord "test_file.py::test_".data line with
  | some m => m
  | none =>
    match searchLitWord "test_".data line with
    | some m => m
    | none =>
      match searchLitWord "::test_".data line with
      | some m => m
      | none => []

/-- `PytestExecutor._find_test_section`: the block of stdout lines from the
`FAILED` line of `testName` up to (excluding) the next line that starts with
`test_` and carries a PASSED/FAILED marker. -/
def findTestSection (stdout testName : List Char) : List Char :=
  let lines := splitNl stdout
  match lines.findIdx? (fun l =>
      isSubstr testName l && isSubstr "FAILED".data l) with
  | none => []
  | some start =>
    let rest := lines.drop (start + 1)
    let len :=
      match rest.findIdx? (fun l =>
          ("test_".data).isPrefixOf l &&
            (isSubstr "PASSED".data l || isSubstr "FAILED".data l)) with
      | some j => j + 1
      | none => rest.length + 1
    joinNl ((lines.drop start).take len)

/-- `PytestExecutor._extract_error_info`: classify the failure by the first
known error-name substring found in the test section. -/
def extractErrorInfo (sec : List Char) : List Char × List Char :=
  if isSubstr "AssertionError".data sec then
    ("AssertionError".data, "Assertion failed".data)
  else if isSubstr "IndexError".data sec then
    ("IndexError".data, "Index out of range".data)
  else if isSubstr "TypeError".data sec then
    ("TypeError".data, "Type error occurred".data)
  else if isSubstr "ValueError".data sec then
    ("ValueError".data, "Value error occurred".data)
  else
    ("RuntimeError".data, "Test execution failed".data)

/-- `PytestExecutor._extract_failed_test_details`: build the `FailedTest`
record for one failed test (`_extract_assertion` returns a constant,
`_extract_line_number` returns `None`, `_build_traceback` returns the
section itself). -/
def extractFailedTestDetails (testName stdout _stderr : List Char) : FailedTest :=
  let sec := findTestSection stdout testName
  let info := extractErrorInfo sec
  { test_name := testName
    assertion := "Test assertion".data
    expected := "Test should pass".data
    actual := "Failed with ".data ++ info.1
    error_type := info.1
    error_message := info.2
    line_number := none
    traceback := sec }

/-- The `error_types` histogram of `_generate_error_summary`: counts per
error type, in first-occurrence order (Python dict insertion order). -/
def countErrorTypes (ets : List (List Char)) : List (List Char × Nat) :=
  ets.foldl (fun acc et =>
    if acc.any (fun p => p.1 = et) then
      acc.map (fun p => if p.1 = et then (p.1, p.2 + 1) else p)
    else acc ++ [(et, 1)]) []

/-- `PytestExecutor._generate_error_summary`: `"All tests passed"` for an
empty failed list, else a histogram string `"Failed tests: kind: n, ..."`. -/
def generateErrorSummary (failedTests : List FailedTest) : List Char :=
  if failedTests.isEmpty then "All tests passed".data
  else
    let parts := (countErrorTypes (failedTests.map (·.error_type))).map
      (fun p => p.1 ++ ": ".data ++ (Nat.repr p.2).data)
    "Failed tests: ".data ++ List.intercalate ", ".data parts

/-- `PytestExecutor._create_error_result`: the zero-test error
`TestResult` (`ready_for_repair = false`, `can_stop_iteration = true`).
`pv`/`tv` are the executor's interpreter and pytest version strings. -/
def createErrorResult (pv tv taskId errorMessage : List Char)
    (executionTime : ℚ) : TestResult :=
  { task_id := taskId
    total_tests := 0
    passed_tests := 0
    failed_tests := 0
    success_rate := 0
    passed_test_details := []
    failed_test_details := []
    execution_time := executionTime
    memory_usage := "N/A".data
    python_version := pv
    pytest_version := tv
    ready_for_repair := false
    can_stop_iteration := true
    error_summary := "Execution error: ".data ++ errorMessage }

/-- The line scan of `_parse_pytest_output`: strip each stdout line; a line
carrying `PASSED` and `test_` yields a pass record, else one carrying
`FAILED` and `test_` yields a fail record — in both cases only when a test
name can be extracted. -/
def scanTestLines (stdout stderr : List Char) :
    List PassedDetail × List FailedTest :=
  (splitNl stdout).foldl (fun acc rawLine =>
    let line := pyStrip rawLine
    if isSubstr "PASSED".data line && isSubstr "test_".data line then
      let name := extractTestName line
      if name.isEmpty then acc
      else (acc.1 ++ [{ test_name := name
                        assertion := "Test ".data ++ name ++ " passed".data
                        status := "PASS".data }], acc.2)
    else if isSubstr "FAILED".data line && isSubstr "test_".data line then
      let name := extractTestName line
      if name.isEmpty then acc
      else (acc.1, acc.2 ++ [extractFailedTestDetails name stdout stderr])
    else acc) ([], [])

/-- `PytestExecutor._parse_pytest_output`: scan stdout for PASSED/FAILED
markers; if none are found and the output indicates zero collected tests,
return the error result built from stderr (or a default message); otherwise
aggregate counts, the success rate and the two control flags. -/
def parsePytestOutput (pv tv : List Char) (result : CompletedProcess)
    (taskId : List Char) (executionTime : ℚ) : TestResult :=
  let stdout := result.stdout
  let stderr := result.stderr
  let scanned := scanTestLines stdout stderr
  if scanned.1.isEmpty && scanned.2.isEmpty &&
      (isSubstr "collected 0 items".data stdout ||
        isSubstr "no tests ran".data stdout) then
    createErrorResult pv tv taskId
      (if stderr.isEmpty then "No tests were collected".data else stderr)
      executionTime
  else
    let totalTests := scanned.1.length + scanned.2.length
    { task_id := taskId
      total_tests := totalTests
      passed_tests := scanned.1.length
      failed_tests := scanned.2.length
      success_rate :=
        if totalTests > 0 then (scanned.1.length : ℚ) / (totalTests : ℚ) else 0
      passed_test_details := scanned.1
      failed_test_details := scanned.2
      execution_time := executionTime
      memory_usage := "N/A".data
      python_version := pv
      pytest_version := tv
      ready_for_repair := decide (scanned.2.length > 0)
      can_stop_iteration := decide (scanned.2.length = 0)
      error_summary := generateErrorSummary scanned.2 }

/-- `PytestExecutor._run_pytest` on `subprocess.TimeoutExpired`: the
synthetic outcome returned when the wall-clock timeout expires. -/
def timeoutOutcome : CompletedProcess :=
  { returncode := -1
    stdout := []
    stderr := "Test execution timed out".data }

/-! ## Iterative-repair orchestrator
(`batch_mbpp_iterative_repair.py`, `run_iterative_repair_for_task` and the
per-task part of `run_pipeline`) -/

/-- The `status` field of the dict returned by
`run_iterative_repair_for_task`. -/
inductive TaskStatus where
  | testGenerationFailed
  | codeGenerationFailed
  | success
  | failed
deriving DecidableEq

/-- The fields of the per-task return dict that the claims are about. -/
structure TaskReturn where
  status : TaskStatus
  rounds_used : Nat
deriving DecidableEq

/-- The fields of a `task_<id>_final_status.json` record
(`save_task_final_status`) that the claims are about. -/
structure FinalStatus where
  total_rounds : Nat
  final_success : Bool
  final_success_rate : ℚ
deriving DecidableEq

/-- The external collaborators of one task, as oracles: whether test/code
generation succeed, the parsed result of the initial execution, and — for
each repair round number — whether repair generation succeeds and what the
re-execution parses to. -/
structure TaskEnv where
  genTestsOk : Bool
  genCodeOk : Bool
  initialResult : TestResult
  repairOk : Nat → Bool
  repairResult : Nat → TestResult

/-- The repair loop of `run_iterative_repair_for_task`
(`while current_round <= self.max_rounds`), iterated over the round numbers
`1..maxRounds`. Returns `some roundsUsed` when a repair round passes all
tests, `none` on exhaustion, together with the last executed `TestResult`
(a round whose generation raises is skipped and leaves the result
unchanged). -/
def repairRounds (env : TaskEnv) :
    List Nat → TestResult → Option Nat × TestResult
  | [], last => (none, last)
  | r :: rest, last =>
    if env.repairOk r then
      let res := env.repairResult r
      if res.failed_tests = 0 then (some (r + 1), res)
      else repairRounds env rest res
    else repairRounds env rest last

/-- `run_iterative_repair_for_task`: the task return dict paired with the
final-status records this function itself writes (it writes one only on the
all-rounds-exhausted path). -/
def runTask (env : TaskEnv) (maxRounds : Nat) :
    TaskReturn × List FinalStatus :=
  if env.genTestsOk = false then
    ({ status := .testGenerationFailed, rounds_used := 0 }, [])
  else if env.genCodeOk = false then
    ({ status := .codeGenerationFailed, rounds_used := 0 }, [])
  else
    let r0 := env.initialResult
    if r0.failed_tests = 0 then
      ({ status := .success, rounds_used := 1 }, [])
    else
      match repairRounds env (List.range' 1 maxRounds) r0 with
      | (some n, _) => ({ status := .success, rounds_used := n }, [])
      | (none, last) =>
        ({ status := .failed, rounds_used := maxRounds + 1 },
         [{ total_rounds := maxRounds + 1
            final_success := false
            final_success_rate :=
              if last.total_tests > 0 then
                (last.passed_tests : ℚ) / (last.total_tests : ℚ)
              else 0 }])

/-- All final-status records written for one task: those written inside
`run_iterative_repair_for_task`, followed by the one `run_pipeline` writes
when the returned status is `success` (`rounds_used`, `True`, `1.0`). -/
def taskFinalStatuses (env : TaskEnv) (maxRounds : Nat) : List FinalStatus :=
  let r := runTask env maxRounds
  r.2 ++
    (if r.1.status = .success then
      [{ total_rounds := r.1.rounds_used
         final_success := true
         final_success_rate := 1 }]
     else [])

/-- A concrete parsed result with one failed test, used to instantiate the
orchestrator oracles in concrete scenarios. -/
def oneFailResult : TestResult :=
  { task_id := "t".data
    total_tests := 1
    passed_tests := 0
    failed_tests := 1
    success_rate := 0
    passed_test_details := []
    failed_test_details := []
    execution_time := 0
    memory_usage := "N/A".data
    python_version := "PY".data
    pytest_version := "PT".data
    ready_for_repair := true
    can_stop_iteration := false
    error_summary := "Failed tests: RuntimeError: 1".data }

/-- A concrete task environment in which generation always succeeds but
every execution — initial and repaired — has a failing test. -/
def envAllFail : TaskEnv :=
  { genTestsOk := true
    genCodeOk := true
    initialResult := oneFailResult
    repairOk := fun _ => true
    repairResult := fun _ => oneFailResult }

/-- A concrete task environment whose initial execution is the
zero-collected-tests error result produced by `_create_error_result`. -/
def envZeroCollected : TaskEnv :=
  { genTestsOk := true
    genCodeOk := true
    initialResult :=
      createErrorResult "PY".data "PT".data "task".data
        "No tests were collected".data 0
    repairOk := fun _ => true
    repairResult := fun _ => oneFailResult }

/-- A concrete task environment whose test generation raises. -/
def envGenFail : TaskEnv :=
  { genTestsOk := false
    genCodeOk := true
    initialResult := oneFailResult
    repairOk := fun _ => false
    repairResult := fun _ => oneFailResult }

/-- A concrete task environment whose initial execution is the parse of the
synthetic timeout outcome. -/
def envTimeout : TaskEnv :=
  { genTestsOk := true
    genCodeOk := true
    initialResult :=
      parsePytestOutput "PY".data "PT".data timeoutOutcome "task".data 0
    repairOk := fun _ => true
    repairResult := fun _ => oneFailResult }

lemma mem_range'_le (maxRounds r : Nat) (h : r ∈ List.range' 1 maxRounds) :
    r ≤ maxRounds := by
  rw [List.mem_range'_1] at h
  omega

lemma repairRounds_some_le (env : TaskEnv) (m : Nat) :
    ∀ (rounds : List Nat) (last : TestResult) (n : Nat),
      (∀ r ∈ rounds, r ≤ m) →
      (repairRounds env rounds last).1 = some n → n ≤ m + 1 := by
  intro rounds
  induction rounds with
  | nil => intro last n _ h; simp [repairRounds] at h
  | cons r rest ih =>
    intro last n hb h
    simp only [repairRounds] at h
    by_cases hok : env.repairOk r = true
    · rw [if_pos hok] at h
      by_cases hf : (env.repairResult r).failed_tests = 0
      · rw [if_pos hf] at h
        simp at h
        have : r ≤ m := hb r (List.mem_cons_self r rest)
        omega
      · rw [if_neg hf] at h
        exact ih _ n (fun x hx => hb x (List.mem_cons_of_mem r hx)) h
    · rw [if_neg hok] at h
      exact ih _ n (fun x hx => hb x (List.mem_cons_of_mem r hx)) h

lemma repairRounds_all_fail (env : TaskEnv)
    (hfail : ∀ r, (env.repairResult r).failed_tests ≠ 0) :
    ∀ (rounds : List Nat) (last : TestResult),
      (repairRounds env rounds last).1 = none := by
  intro rounds
  induction rounds with
  | nil => intro last; simp [repairRounds]
  | cons r rest ih =>
    intro last
    simp only [repairRounds]
    by_cases hok : env.repairOk r = true
    · rw [if_pos hok, if_neg (hfail r)]
      exact ih _
    · rw [if_neg hok]
      exact ih _

lemma runTask_cases (env : TaskEnv) (maxRounds : Nat) :
    runTask env maxRounds =
      ({ status := .testGenerationFailed, rounds_used := 0 }, []) ∨
    runTask env maxRounds =
      ({ status := .codeGenerationFailed, rounds_used := 0 }, []) ∨
    (∃ n, n ≤ maxRounds + 1 ∧
      runTask env maxRounds = ({ status := .success, rounds_used := n }, [])) ∨
    (∃ q, runTask env maxRounds =
      ({ status := .failed, rounds_used := maxRounds + 1 },
       [{ total_rounds := maxRounds + 1
          final_success := false
          final_success_rate := q }])) := by
  by_cases h1 : env.genTestsOk = false
  · exact Or.inl (by simp [runTask, h1])
  by_cases h2 : env.genCodeOk = false
  · exact Or.inr (Or.inl (by simp [runTask, h1, h2]))
  by_cases h3 : env.initialResult.failed_tests = 0
  · exact Or.inr (Or.inr (Or.inl ⟨1, by omega, by simp [runTask, h1, h2, h3]⟩))
  rcases hpair : repairRounds env (List.range' 1 maxRounds) env.initialResult
    with ⟨o, lastR⟩
  cases o with
  | some n =>
    refine Or.inr (Or.inr (Or.inl ⟨n, ?_, ?_⟩))
    · exact repairRounds_some_le env maxRounds _ _ n
        (fun r hr => mem_range'_le maxRounds r hr) (by rw [hpair])
    · simp [runTask, h1, h2, h3, hpair]
  | none =>
    refine Or.inr (Or.inr (Or.inr
      ⟨if lastR.total_tests > 0 then
          (lastR.passed_tests : ℚ) / (lastR.total_tests : ℚ)
        else 0, ?_⟩))
    simp [runTask, h1, h2, h3, hpair]

/-! ## Lemmas about line splitting and joining -/

lemma splitNl_ne_nil (s : List Char) : splitNl s ≠ [] := by
  induction s with
  | nil => simp [splitNl]
  | cons c t ih =>
    simp only [splitNl]
    split
    · simp
    · cases h : splitNl t with
      | nil => exact absurd h ih
      | cons _ _ => simp

lemma not_mem_of_mem_splitNl (s : List Char) :
    ∀ l ∈ splitNl s, '\n' ∉ l := by
  induction s with
  | nil => intro l hl; simp [splitNl] at hl; simp [hl]
  | cons c t ih =>
    intro l hl
    simp only [splitNl] at hl
    by_cases hc : c = '\n'
    · rw [if_pos hc] at hl
      rcases List.mem_cons.mp hl with h | h
      · simp [h]
      · exact ih l h
    · rw [if_neg hc] at hl
      cases h : splitNl t with
      | nil => exact absurd h (splitNl_ne_nil t)
      | cons hd tl =>
        rw [h] at hl
        rcases List.mem_cons.mp hl with h2 | h2
        · subst h2
          intro hmem
          rcases List.mem_cons.mp hmem with h3 | h3
          · exact hc h3.symm
          · exact ih hd (h ▸ List.mem_cons_self hd tl) h3
        · exact ih l (h ▸ List.mem_cons_of_mem hd h2)

lemma splitNl_of_no_nl (l : List Char) (h : '\n' ∉ l) : splitNl l = [l] := by
  induction l with
  | nil => simp [splitNl]
  | cons c t ih =>
    have hc : c ≠ '\n' := fun he => h (he ▸ List.mem_cons_self c t)
    have ht : '\n' ∉ t := fun hm => h (List.mem_cons_of_mem c hm)
    simp only [splitNl, if_neg hc, ih ht]

lemma splitNl_append_nl (l rest : List Char) (h : '\n' ∉ l) :
    splitNl (l ++ '\n' :: rest) = l :: splitNl rest := by
  induction l with
  | nil => simp [splitNl]
  | cons c t ih =>
    have hc : c ≠ '\n' := fun he => h (he ▸ List.mem_cons_self c t)
    have ht : '\n' ∉ t := fun hm => h (List.mem_cons_of_mem c hm)
    simp only [List.cons_append, splitNl, if_neg hc]
    rw [show t.append ('\n' :: rest) = t ++ '\n' :: rest from rfl, ih ht]

lemma splitNl_joinNl (ls : List (List Char)) (hne : ls ≠ [])
    (hnl : ∀ l ∈ ls, '\n' ∉ l) : splitNl (joinNl ls) = ls := by
  induction ls with
  | nil => exact absurd rfl hne
  | cons l rest ih =>
    cases rest with
    | nil =>
      simp only [joinNl]
      exact splitNl_of_no_nl l (hnl l (List.mem_cons_self l []))
    | cons l2 rest2 =>
      have h1 : '\n' ∉ l := hnl l (List.mem_cons_self l _)
      have h2 : ∀ x ∈ l2 :: rest2, '\n' ∉ x :=
        fun x hx => hnl x (List.mem_cons_of_mem l hx)
      simp only [joinNl]
      rw [splitNl_append_nl l _ h1, ih (by simp) h2]

/-! ## C10: idempotence of the import sanitizer -/

/-- **C10** — The import-sanitization step is idempotent: applying
`_fix_import_statements` to its own output yields the same text as applying
it once; no edits accumulate on a second pass. -/
theorem fixImportStatements_idempotent (tests : List Char) :
    fixImportStatements (fixImportStatements tests) = fixImportStatements tests := by
  unfold fixImportStatements
  cases h : (splitNl tests).filter keepLine with
  | nil => rfl
  | cons l r =>
    have hsub : ∀ x ∈ (splitNl tests).filter keepLine, '\n' ∉ x := fun x hx =>
      not_mem_of_mem_splitNl tests x (List.mem_of_mem_filter hx)
    rw [splitNl_joinNl (l :: r) (by simp) (h ▸ hsub)]
    have hkeep : ∀ x ∈ l :: r, keepLine x = true := fun x hx =>
      List.of_mem_filter (h ▸ hx)
    rw [List.filter_eq_self.mpr hkeep]

/-! ## C1, C2: invariants of every produced TestResult -/

/-- C1 — For every `TestResult` produced by `PytestExecutor`, on both the
parsing path (`_parse_pytest_output`) and the error path
(`_create_error_result`), `can_stop_iteration` is true iff
`failed_tests = 0`, and `ready_for_repair` is true iff `failed_tests > 0`. -/
theorem control_flags_iff_failed_tests (pv tv : List Char)
    (result : CompletedProcess) (taskId msg : List Char) (t u : ℚ) :
    (((parsePytestOutput pv tv result taskId t).can_stop_iteration = true ↔
        (parsePytestOutput pv tv result taskId t).failed_tests = 0) ∧
      ((parsePytestOutput pv tv result taskId t).ready_for_repair = true ↔
        (parsePytestOutput pv tv result taskId t).failed_tests > 0)) ∧
    (((createErrorResult pv tv taskId msg u).can_stop_iteration = true ↔
        (createErrorResult pv tv taskId msg u).failed_tests = 0) ∧
      ((createErrorResult pv tv taskId msg u).ready_for_repair = true ↔
        (createErrorResult pv tv taskId msg u).failed_tests > 0)) := by
  constructor
  · simp only [parsePytestOutput]
    split
    · simp [createErrorResult]
    · simp
  · simp [createErrorResult]

/-- C2 — For every `TestResult` produced by `PytestExecutor`,
`passed_tests + failed_tests = total_tests`, and `success_rate` is
`passed_tests / total_tests` when `total_tests > 0` and `0` otherwise — on
both the parsing path and the error path. -/
theorem counts_and_success_rate (pv tv : List Char)
    (result : CompletedProcess) (taskId msg : List Char) (t u : ℚ) :
    ((parsePytestOutput pv tv result taskId t).passed_tests +
        (parsePytestOutput pv tv result taskId t).failed_tests =
        (parsePytestOutput pv tv result taskId t).total_tests ∧
      (parsePytestOutput pv tv result taskId t).success_rate =
        (if (parsePytestOutput pv tv result taskId t).total_tests > 0 then
          ((parsePytestOutput pv tv result taskId t).passed_tests : ℚ) /
            ((parsePytestOutput pv tv result taskId t).total_tests : ℚ)
        else 0)) ∧
    ((createErrorResult pv tv taskId msg u).passed_tests +
        (createErrorResult pv tv taskId msg u).failed_tests =
        (createErrorResult pv tv taskId msg u).total_tests ∧
      (createErrorResult pv tv taskId msg u).success_rate =
        (if (createErrorResult pv tv taskId msg u).total_tests > 0 then
          ((createErrorResult pv tv taskId msg u).passed_tests : ℚ) /
            ((createErrorResult pv tv taskId msg u).total_tests : ℚ)
        else 0)) := by
  constructor
  · simp only [parsePytestOutput]
    split
    · simp [createErrorResult]
    · simp
  · simp [createErrorResult]

/-! ## C6: the zero-collected-tests path of the parser -/

/-- C6 — If the line scan finds no PASSED/FAILED markers in stdout and the
output indicates zero collected tests, `_parse_pytest_output` returns the
`_create_error_result` result: `total_tests = 0`, `ready_for_repair = false`,
`can_stop_iteration = true`, with the error summary built from stderr when
stderr is non-empty and from the default message otherwise. -/
theorem zero_collected_gives_error_result (pv tv : List Char)
    (result : CompletedProcess) (taskId : List Char) (t : ℚ)
    (hscan : scanTestLines result.stdout result.stderr = ([], []))
    (hcoll : (isSubstr "collected 0 items".data result.stdout ||
        isSubstr "no tests ran".data result.stdout) = true) :
    parsePytestOutput pv tv result taskId t =
      createErrorResult pv tv taskId
        (if result.stderr.isEmpty then "No tests were collected".data
         else result.stderr) t ∧
    (parsePytestOutput pv tv result taskId t).total_tests = 0 ∧
    (parsePytestOutput pv tv result taskId t).ready_for_repair = false ∧
    (parsePytestOutput pv tv result taskId t).can_stop_iteration = true ∧
    (parsePytestOutput pv tv result taskId t).error_summary =
      "Execution error: ".data ++
        (if result.stderr.isEmpty then "No tests were collected".data
         else result.stderr) := by
  have h : parsePytestOutput pv tv result taskId t =
      createErrorResult pv tv taskId
        (if result.stderr.isEmpty then "No tests were collected".data
         else result.stderr) t := by
    simp only [parsePytestOutput, hscan]
    simp [hcoll]
  refine ⟨h, ?_, ?_, ?_, ?_⟩ <;> rw [h] <;> rfl

/-- C6 witness — a concrete zero-collected outcome with non-empty stderr:
the parser returns the error result whose summary carries that stderr. -/
theorem zero_collected_gives_error_result_witness :
    parsePytestOutput "PY".data "PT".data
        { returncode := 1, stdout := "collected 0 items".data,
          stderr := "boom".data } "task".data 0 =
      createErrorResult "PY".data "PT".data "task".data "boom".data 0 :=
  ((zero_collected_gives_error_result "PY".data "PT".data
      { returncode := 1, stdout := "collected 0 items".data,
        stderr := "boom".data } "task".data 0
      (by decide) (by decide)).1).trans (by decide)

/-! ## C9: determinism of the result parser -/

/-- C9 — The result parser is deterministic: two calls on equal raw
outcomes, task ids and elapsed times yield equal `TestResult`s. -/
theorem parse_deterministic (pv tv : List Char) (o₁ o₂ : CompletedProcess)
    (t₁ t₂ : List Char) (e₁ e₂ : ℚ)
    (ho : o₁ = o₂) (ht : t₁ = t₂) (he : e₁ = e₂) :
    parsePytestOutput pv tv o₁ t₁ e₁ = parsePytestOutput pv tv o₂ t₂ e₂ := by
  rw [ho, ht, he]

/-- C9 witness — determinism instantiated at the concrete timeout outcome. -/
theorem parse_deterministic_witness :
    parsePytestOutput "PY".data "PT".data timeoutOutcome "task".data 0 =
      parsePytestOutput "PY".data "PT".data timeoutOutcome "task".data 0 :=
  parse_deterministic "PY".data "PT".data timeoutOutcome timeoutOutcome
    "task".data "task".data 0 0 rfl rfl rfl

/-! ## C3: what actually happens to a timed-out execution -/

/-- C3 — Evaluation of the code at the timeout outcome
(`_run_pytest` on `TimeoutExpired` returns exit code `-1`, empty stdout,
stderr `"Test execution timed out"`): the parser yields a result with zero
tests, `failed_tests = 0`, `can_stop_iteration = true` and error summary
`"All tests passed"`, and the orchestrator then takes the success path
(status `success`, one round) instead of treating the timeout as a failing
round that counts toward round exhaustion. -/
theorem timeout_parsed_as_success :
    (parsePytestOutput "PY".data "PT".data timeoutOutcome "task".data
        0).failed_tests = 0 ∧
    (parsePytestOutput "PY".data "PT".data timeoutOutcome "task".data
        0).total_tests = 0 ∧
    (parsePytestOutput "PY".data "PT".data timeoutOutcome "task".data
        0).ready_for_repair = false ∧
    (parsePytestOutput "PY".data "PT".data timeoutOutcome "task".data
        0).can_stop_iteration = true ∧
    (parsePytestOutput "PY".data "PT".data timeoutOutcome "task".data
        0).error_summary = "All tests passed".data ∧
    (runTask envTimeout 2).1 =
      { status := .success, rounds_used := 1 } ∧
    taskFinalStatuses envTimeout 2 =
      [{ total_rounds := 1, final_success := true,
         final_success_rate := 1 }] := by decide

/-! ## C4: a zero-collected round and the orchestrator -/

/-- C4 counterexample — with an initial round whose execution parses to the
zero-collected-tests error result, the orchestrator returns status
`success` with `rounds_used = 1` and records final success: it does
interpret that round as overall task success and performs no repair round,
contrary to the claim. -/
theorem zero_test_round_counterexample :
    runTask envZeroCollected 2 =
      ({ status := .success, rounds_used := 1 }, []) ∧
    taskFinalStatuses envZeroCollected 2 =
      [{ total_rounds := 1, final_success := true,
         final_success_rate := 1 }] ∧
    envZeroCollected.initialResult.total_tests = 0 ∧
    envZeroCollected.initialResult.ready_for_repair = false ∧
    envZeroCollected.initialResult.can_stop_iteration = true := by decide

/-- C4 amended — when a round's execution yields a result with
`failed_tests = 0` (which includes every zero-collected-tests result), the
orchestrator takes the success path: it returns status `success` with
`rounds_used = 1`, writes a final-success status record, and does not
advance to a repair round. -/
theorem zero_failed_initial_is_success (env : TaskEnv) (maxRounds : Nat)
    (h1 : env.genTestsOk = true) (h2 : env.genCodeOk = true)
    (h3 : env.initialResult.failed_tests = 0) :
    runTask env maxRounds = ({ status := .success, rounds_used := 1 }, []) ∧
    taskFinalStatuses env maxRounds =
      [{ total_rounds := 1, final_success := true,
         final_success_rate := 1 }] := by
  have h : runTask env maxRounds =
      ({ status := .success, rounds_used := 1 }, []) := by
    simp [runTask, h1, h2, h3]
  exact ⟨h, by simp [taskFinalStatuses, h]⟩

/-- C4 amended witness — the amended statement instantiated at the concrete
zero-collected environment. -/
theorem zero_failed_initial_is_success_witness :
    runTask envZeroCollected 2 =
      ({ status := .success, rounds_used := 1 }, []) :=
  (zero_failed_initial_is_success envZeroCollected 2 rfl rfl (by decide)).1

/-! ## C5: the round budget bound -/

/-- C5 — For every task environment and budget `maxRounds`: the returned
`rounds_used` is at most `maxRounds + 1`; every final-status record has
`total_rounds ≤ maxRounds + 1`; and when generation succeeds but the
initial attempt and every repair attempt fail, the task ends with status
`failed`, `rounds_used = maxRounds + 1`, and exactly one final-status
record with `final_success = false` and `total_rounds = maxRounds + 1`. -/
theorem rounds_used_bounded (env : TaskEnv) (maxRounds : Nat) :
    (runTask env maxRounds).1.rounds_used ≤ maxRounds + 1 ∧
    (∀ fs ∈ taskFinalStatuses env maxRounds,
      fs.total_rounds ≤ maxRounds + 1) ∧
    ((env.genTestsOk = true ∧ env.genCodeOk = true ∧
        env.initialResult.failed_tests ≠ 0 ∧
        (∀ r, (env.repairResult r).failed_tests ≠ 0)) →
      (runTask env maxRounds).1.status = TaskStatus.failed ∧
      (runTask env maxRounds).1.rounds_used = maxRounds + 1 ∧
      (taskFinalStatuses env maxRounds).length = 1 ∧
      ∀ fs ∈ taskFinalStatuses env maxRounds,
        fs.final_success = false ∧ fs.total_rounds = maxRounds + 1) := by
  refine ⟨?_, ?_, ?_⟩
  · rcases runTask_cases env maxRounds with h | h | ⟨n, hn, h⟩ | ⟨q, h⟩
    · rw [h]; exact Nat.zero_le _
    · rw [h]; exact Nat.zero_le _
    · rw [h]; exact hn
    · rw [h]
  · intro fs hfs
    rcases runTask_cases env maxRounds with h | h | ⟨n, hn, h⟩ | ⟨q, h⟩
    · simp [taskFinalStatuses, h] at hfs
    · simp [taskFinalStatuses, h] at hfs
    · simp [taskFinalStatuses, h] at hfs
      rw [hfs]
      exact hn
    · simp [taskFinalStatuses, h] at hfs
      rw [hfs]
  · rintro ⟨h1, h2, h3, h4⟩
    rcases hpair : repairRounds env (List.range' 1 maxRounds)
      env.initialResult with ⟨o, lastR⟩
    have ho : o = none := by
      have := repairRounds_all_fail env h4 (List.range' 1 maxRounds)
        env.initialResult
      rw [hpair] at this
      exact this
    subst ho
    have hrun : runTask env maxRounds =
        ({ status := .failed, rounds_used := maxRounds + 1 },
         [{ total_rounds := maxRounds + 1
            final_success := false
            final_success_rate :=
              if lastR.total_tests > 0 then
                (lastR.passed_tests : ℚ) / (lastR.total_tests : ℚ)
              else 0 }]) := by
      simp [runTask, h1, h2, h3, hpair]
    refine ⟨by rw [hrun], by rw [hrun], ?_, ?_⟩
    · simp [taskFinalStatuses, hrun]
    · intro fs hfs
      simp [taskFinalStatuses, hrun] at hfs
      simp [hfs]

/-- C5 witness — the bound and the exhaustion scenario instantiated at the
concrete all-attempts-fail environment with `maxRounds = 2` (Scenario D):
status `failed` and three rounds in total. -/
theorem rounds_used_bounded_witness :
    (runTask envAllFail 2).1.status = TaskStatus.failed ∧
    (runTask envAllFail 2).1.rounds_used = 3 ∧
    (runTask envAllFail 2).1.rounds_used ≤ 3 := by
  have h := rounds_used_bounded envAllFail 2
  have h3 := h.2.2 ⟨rfl, rfl, by decide,
    fun r => by simp [envAllFail, oneFailResult]⟩
  exact ⟨h3.1, h3.2.1, h.1⟩

/-! ## C7: final-status records per task -/

/-- C7 counterexample — a task whose test generation fails is attempted yet
produces no final-status record at all, contrary to the claim that every
attempted task ends with one. -/
theorem gen_failed_task_has_no_final_status :
    taskFinalStatuses envGenFail 2 = [] ∧
    (runTask envGenFail 2).1.status = TaskStatus.testGenerationFailed := by
  decide

/-- C7 amended — every task whose test generation and initial code
generation both succeed ends with exactly one final-status record (the
failure path writes it inside `run_iterative_repair_for_task`, the success
path in `run_pipeline`); a task failing at either generation stage produces
none. -/
theorem final_status_written_once (env : TaskEnv) (maxRounds : Nat)
    (h1 : env.genTestsOk = true) (h2 : env.genCodeOk = true) :
    (taskFinalStatuses env maxRounds).length = 1 := by
  by_cases h3 : env.initialResult.failed_tests = 0
  · simp [taskFinalStatuses, runTask, h1, h2, h3]
  · rcases hpair : repairRounds env (List.range' 1 maxRounds)
      env.initialResult with ⟨o, lastR⟩
    cases o with
    | some n => simp [taskFinalStatuses, runTask, h1, h2, h3, hpair]
    | none => simp [taskFinalStatuses, runTask, h1, h2, h3, hpair]

/-- C7 amended witness — exactly one final-status record for the concrete
all-attempts-fail environment. -/
theorem final_status_written_once_witness :
    (taskFinalStatuses envAllFail 2).length = 1 :=
  final_status_written_once envAllFail 2 rfl rfl

/-! ## C8: combining candidate code and tests -/

/-- C8 — If the (stripped) test suite contains a line that, stripped, starts
a non-test function definition, the combined unit is the sanitized test
suite alone and the candidate code is not concatenated; otherwise the unit
is the baseline imports, the candidate code, and then the sanitized tests. -/
theorem combine_code_and_tests_spec (code tests : List Char) :
    (testsContainFunctionDefinition (pyStrip tests) = true →
      combineCodeAndTests code tests = fixImportStatements (pyStrip tests)) ∧
    (testsContainFunctionDefinition (pyStrip tests) = false →
      combineCodeAndTests code tests =
        joinNl ["import pytest".data, "import sys".data, "import os".data,
                [], "# Generated code".data, pyStrip code, [],
                "# Generated tests".data,
                fixImportStatements (pyStrip tests)]) := by
  constructor <;> intro h <;> simp [combineCodeAndTests, h]

/-- C8 witness — both branches at concrete inputs: a self-contained test
suite (defining `add` itself) is returned alone and sanitized, while a
test-only suite gets the imports, the candidate code, and the tests. -/
theorem combine_code_and_tests_spec_witness :
    combineCodeAndTests "def add(a, b):\n    return a + b".data
        "def add(a, b):\n    return a + b\ndef test_add():\n    assert add(1, 2) == 3".data =
      fixImportStatements
        (pyStrip "def add(a, b):\n    return a + b\ndef test_add():\n    assert add(1, 2) == 3".data) ∧
    combineCodeAndTests "def add(a, b):\n    return a + b".data
        "def test_add():\n    assert add(1, 2) == 3".data =
      joinNl ["import pytest".data, "import sys".data, "import os".data,
              [], "# Generated code".data,
              pyStrip "def add(a, b):\n    return a + b".data, [],
              "# Generated tests".data,
              fixImportStatements
                (pyStrip "def test_add():\n    assert add(1, 2) == 3".data)] :=
  ⟨(combine_code_and_tests_spec "def add(a, b):\n    return a + b".data
      "def add(a, b):\n    return a + b\ndef test_add():\n    assert add(1, 2) == 3".data).1
      (by decide),
   (combine_code_and_tests_spec "def add(a, b):\n    return a + b".data
      "def test_add():\n    assert add(1, 2) == 3".data).2 (by decide)⟩

end TddKit
